import Mathlib

/-!
A shallow embedding of the client-side router in `src/router/index.js`
(class `Router`), together with proofs about its matching and navigation
pipeline.

Modelling decisions:
* URLs are modelled as a pathname plus a search string; `parseUrl` models
  the host primitive `new URL(str, base)` for path-style inputs (the base
  URL is a black box that does not vary during a run).
* The pattern matcher `URLPattern#exec` is a black box: each compiled
  route carries a function `matcher : Url → Option groups` standing for
  `route.urlPattern.exec(url)`, returning the named pathname groups on a
  match.
* JavaScript exceptions are modelled with `Except String` / `Option String`
  error results: `navigate` returns the mutated router state together with
  the propagated error, because a thrown hook error leaves already
  performed mutations in place.
* Ambient browser state touched by the router (`window.history` pushes,
  `document.title`, dispatched `route-changed` events, `location.href`)
  is carried in explicit fields `history`, `docTitle`, `emitted`,
  `locationHref` of the router state.
* `async`/`await` in a single-threaded run with pure hooks is modelled by
  ordinary sequential evaluation; a guard's `condition()` is modelled by
  its (possibly throwing) result value.
-/

namespace AppRouter

/-- A URL, reduced to the parts the router reads: pathname and search. -/
structure Url where
  pathname : String
  search : String
deriving DecidableEq, Repr

/-- Model of `url.href` (origin omitted: all URLs are same-origin here). -/
def Url.href (u : Url) : String := u.pathname ++ u.search

/-- Split a character list at a separator character. -/
def splitOnCharAux (sep : Char) : List Char → List Char → List (List Char)
  | [], acc => [acc.reverse]
  | c :: cs, acc =>
    if c = sep then acc.reverse :: splitOnCharAux sep cs []
    else splitOnCharAux sep cs (c :: acc)

/-- Split a string at a separator character. -/
def splitOnChar (sep : Char) (s : String) : List String :=
  (splitOnCharAux sep s.data []).map String.mk

/-- Model of URL resolution `new URL(str, base)` for path-style strings:
split the string into pathname and search at the first `?`. -/
def parseUrl (s : String) : Url :=
  match splitOnChar '?' s with
  | [] => { pathname := s, search := "" }
  | [p] => { pathname := p, search := "" }
  | p :: rest => { pathname := p, search := "?" ++ String.intercalate "?" rest }

/-- Model of iterating `new URLSearchParams(search)`: parse `?a=1&b=2`
into key/value pairs in order. A bare key gets the empty value; empty
segments are skipped. -/
def parseSearch (search : String) : List (String × String) :=
  let body := match search.data with
    | '?' :: rest => rest
    | l => l
  (splitOnCharAux '&' body []).filterMap fun kv =>
    if kv = [] then none
    else match splitOnCharAux '=' kv [] with
    | [] => none
    | [k] => some (String.mk k, "")
    | k :: vs => some (String.mk k, String.intercalate "=" (vs.map String.mk))

/-- Insert a key/value pair, overwriting the value of an existing key in
place (JavaScript object assignment semantics). -/
def upsert : List (String × String) → String → String → List (String × String)
  | [], k, v => [(k, v)]
  | (k', v') :: rest, k, v =>
    if k' = k then (k, v) :: rest else (k', v') :: upsert rest k v

/-- Model of `Object.fromEntries`: keys in first-occurrence order, last
value wins on duplicates. -/
def fromEntries (l : List (String × String)) : List (String × String) :=
  l.foldl (fun acc kv => upsert acc kv.1 kv.2) []

/-- Is `pat` a prefix of the list? -/
def isPrefixList : List Char → List Char → Bool
  | [], _ => true
  | _ :: _, [] => false
  | a :: as, b :: bs => a = b && isPrefixList as bs

/-- Does the list contain `pat` as a contiguous sublist? -/
def containsList (pat : List Char) : List Char → Bool
  | [] => isPrefixList pat []
  | c :: cs => isPrefixList pat (c :: cs) || containsList pat cs

/-- Model of `String.prototype.includes`. -/
def strIncludes (s pat : String) : Bool := containsList pat.data s.data

/-- The navigation context (`Context` typedef in the source): resolved url,
title, path params and query params. -/
structure Context where
  url : Url
  title : String
  params : List (String × String)
  query : List (String × String)
deriving DecidableEq, Repr

/-- A route's `title` field: a literal string or a function of
`{params, query, url}` (the source checks `typeof title === 'function'`). -/
inductive Title where
  | literal (s : String)
  | computed (f : List (String × String) → List (String × String) → Url → String)

/-- Resolve a `Title` exactly as line 113 of the source does. -/
def resolveTitle : Title → List (String × String) → List (String × String) → Url → String
  | .literal s, _, _, _ => s
  | .computed f, params, query, url => f params query url

/-- A guard descriptor returned by `shouldNavigate`: the awaited result of
`condition()` (which may throw), and the redirect target string. -/
structure Guard where
  condition : Except String Bool
  redirect : String

/-- A plugin (`Plugin` typedef): any subset of the three hooks may be
present; each hook may throw. `shouldNavigate` may return no guard
descriptor (`undefined`), modelled as `Option Guard`. -/
structure Plugin where
  shouldNavigate : Option (Context → Except String (Option Guard)) := none
  beforeNavigation : Option (Context → Except String Unit) := none
  afterNavigation : Option (Context → Except String Unit) := none

/-- A compiled route (`Route` typedef): the path template, the compiled
black-box matcher standing for `urlPattern.exec` (returning the named
pathname groups), the title, an optional render function producing an
opaque result of type `ρ`, and the route's plugins. -/
structure Route (ρ : Type) where
  path : String
  matcher : Url → Option (List (String × String))
  title : Title
  render : Option (Context → ρ) := none
  plugins : List Plugin := []

/-- The router state: the compiled route table, the global config plugins,
the configured fallback path, the current route and context, and the
ambient browser state the router mutates (history entries pushed,
document title, dispatched change events, location). -/
structure Router (ρ : Type) where
  routes : List (Route ρ)
  plugins : List Plugin := []
  fallbackCfg : Option String := none
  route : Option (Route ρ) := none
  context : Context
  history : List String := []
  docTitle : String := ""
  emitted : List Context := []
  locationHref : String := ""

/-- The `fallback` getter: `new URL(this.config?.fallback || '/', this.baseUrl)`
(an empty configured string is falsy and also yields `/`). -/
def Router.fallbackUrl (s : Router ρ) : Url :=
  parseUrl (match s.fallbackCfg with
    | none => "/"
    | some f => if f = "" then "/" else f)

/-- The loop body of `_matchRoute` (lines 105–119): first route whose
matcher accepts the URL, together with the context built for it. -/
def matchRouteAux : List (Route ρ) → Url → Option (Route ρ × Context)
  | [], _ => none
  | r :: rs, url =>
    match r.matcher url with
    | some groups =>
      let query := fromEntries (parseSearch url.search)
      let params := groups
      some (r, { url := url,
                 title := resolveTitle r.title params query url,
                 params := params,
                 query := query })
    | none => matchRouteAux rs url

/-- `_matchRoute(url)` (lines 104–121): returns the matched route and, as a
side effect on a match, assigns the freshly built context into
`this.context`. -/
def Router.matchRoute (s : Router ρ) (url : Url) : Router ρ × Option (Route ρ) :=
  match matchRouteAux s.routes url with
  | some (r, ctx) => ({ s with context := ctx }, some r)
  | none => (s, none)

/-- The resolve step `this.route = this._matchRoute(url) || this._matchRoute(this.fallback)`
(lines 166 and 178). -/
def resolveRoute (s : Router ρ) (url : Url) : Router ρ :=
  match s.matchRoute url with
  | (s1, some r) => { s1 with route := some r }
  | (s1, none) =>
    match s1.matchRoute s1.fallbackUrl with
    | (s2, r2) => { s2 with route := r2 }

/-- The effective plugin list (lines 167–170):
`[...(this.config?.plugins ?? []), ...(this.route?.plugins ?? [])]`. -/
def effectivePlugins (s : Router ρ) : List Plugin :=
  s.plugins ++ (match s.route with | some r => r.plugins | none => [])

/-- The guard phase (lines 172–181): for each plugin in the captured list,
call `shouldNavigate` on the current context; on a returned descriptor
await its condition; when the condition is false, resolve the redirect
(with fallback) and continue with the remaining plugins. A thrown error
aborts the loop, leaving the state mutated so far. Returns the final
state, the final value of the local `url` variable, and a thrown error. -/
def guardLoop : List Plugin → Router ρ → Url → Router ρ × Url × Option String
  | [], s, u => (s, u, none)
  | p :: ps, s, u =>
    match p.shouldNavigate with
    | none => guardLoop ps s u
    | some f =>
      match f s.context with
      | .error e => (s, u, some e)
      | .ok none => guardLoop ps s u
      | .ok (some g) =>
        match g.condition with
        | .error e => (s, u, some e)
        | .ok true => guardLoop ps s u
        | .ok false =>
          let u' := parseUrl g.redirect
          guardLoop ps (resolveRoute s u') u'

/-- The before phase (lines 187–189): run each `beforeNavigation` on the
current context; the first thrown error aborts the loop. -/
def beforeLoop : List Plugin → Context → Option String
  | [], _ => none
  | p :: ps, c =>
    match p.beforeNavigation with
    | none => beforeLoop ps c
    | some f =>
      match f c with
      | .error e => some e
      | .ok _ => beforeLoop ps c

/-- The after phase (lines 195–197): run each `afterNavigation` on the
current context; the first thrown error aborts the loop. -/
def afterLoop : List Plugin → Context → Option String
  | [], _ => none
  | p :: ps, c =>
    match p.afterNavigation with
    | none => afterLoop ps c
    | some f =>
      match f c with
      | .error e => some e
      | .ok _ => afterLoop ps c

/-- The commit step (lines 191–193): push `${url.pathname}${url.search}`
onto the history (which also updates the visible location), set the
document title from the current context, and dispatch the change event
carrying the current context. -/
def commit (s : Router ρ) (u : Url) : Router ρ :=
  { s with history := s.history ++ [u.pathname ++ u.search],
           locationHref := u.pathname ++ u.search,
           docTitle := s.context.title,
           emitted := s.emitted ++ [s.context] }

/-- `navigate(url)` (lines 161–198): resolve with fallback, capture the
effective plugin list once, run the guard loop, throw when no route
resolved, run the before hooks, commit, run the after hooks. Returns the
mutated state together with the propagated error, if any. -/
def navigate (s : Router ρ) (u : Url) : Router ρ × Option String :=
  let s1 := resolveRoute s u
  let L := effectivePlugins s1
  match guardLoop L s1 u with
  | (s2, _, some e) => (s2, some e)
  | (s2, u2, none) =>
    match s2.route with
    | none => (s2, some ("[ROUTER] No route or fallback matched for url " ++ u2.href))
    | some _ =>
      match beforeLoop L s2.context with
      | some e => (s2, some e)
      | none =>
        let s3 := commit s2 u2
        match afterLoop L s3.context with
        | some e => (s3, some e)
        | none => (s3, none)

/-- `_onPopState` (lines 127–130): re-match the current URL (passed in,
since the browser updated the location before firing the event), assign
the route (possibly null), and dispatch the change event with the current
context. No fallback, no plugin phases. -/
def onPopState (s : Router ρ) (cur : Url) : Router ρ :=
  match s.matchRoute cur with
  | (s1, r) =>
    let s2 := { s1 with route := r }
    { s2 with emitted := s2.emitted ++ [s2.context] }

/-- An element on a click event's composed path; only anchors (`tagName = "A"`)
carry meaningful href/download/target data. -/
structure PathElement where
  tagName : String
  href : String := ""
  hasDownload : Bool := false
  target : Option String := none

/-- A click event, reduced to the fields `_onAnchorClick` reads. -/
structure ClickEvent where
  defaultPrevented : Bool := false
  button : Nat := 0
  metaKey : Bool := false
  ctrlKey : Bool := false
  shiftKey : Bool := false
  composedPath : List PathElement := []

/-- The target-attribute exclusion of lines 151–152:
`target && target !== '' && target !== '_self'` (a missing attribute is
`null`, hence falsy). -/
def targetExcluded : Option String → Bool
  | none => false
  | some t => t != "" && t != "_self"

/-- `_onAnchorClick` (lines 132–156). Returns the resulting router state,
whether the handler called `preventDefault` (always paired in the source
with invoking `navigate`), and the error propagated from `navigate` if it
was invoked and threw. -/
def onAnchorClick (s : Router ρ) (e : ClickEvent) : Router ρ × Bool × Option String :=
  if e.defaultPrevented || e.button != 0 || e.metaKey || e.ctrlKey || e.shiftKey then
    (s, false, none)
  else
    match e.composedPath.find? (fun el => el.tagName == "A") with
    | none => (s, false, none)
    | some a =>
      if a.href == "" then (s, false, none)
      else if s.locationHref == (parseUrl a.href).href then (s, false, none)
      else if a.hasDownload || strIncludes a.href "mailto:" then (s, false, none)
      else if targetExcluded a.target then (s, false, none)
      else
        match navigate s (parseUrl a.href) with
        | (s', err) => (s', true, err)

/-- `render()` (lines 90–98): `this.route?.render({params, query, url, title})`.
With no current route the optional chain short-circuits to `undefined`;
with a current route that has no `render` function, calling `undefined`
throws a TypeError (the chain does not guard the `render` property). -/
def Router.render (s : Router ρ) : Except String (Option ρ) :=
  match s.route with
  | none => .ok none
  | some r =>
    match r.render with
    | none => .error "TypeError: this.route.render is not a function"
    | some f =>
      .ok (some (f { url := s.context.url,
                     title := s.context.title,
                     params := s.context.params,
                     query := s.context.query }))


/-- `s` and `t` agree on the fields that determine navigation behaviour. -/
def NavEq (s t : Router ρ) : Prop :=
  s.routes = t.routes ∧ s.plugins = t.plugins ∧ s.fallbackCfg = t.fallbackCfg ∧
  s.context = t.context ∧ s.route = t.route


/-! ### Concrete instances (routers, routes, plugins, URLs) used by the
claim theorems, their witnesses and counterexamples below. The opaque
render-result type is instantiated with `Nat`. -/

/-- The boot context of a freshly constructed router at location `/`. -/
def ctx0 : Context :=
  { url := { pathname := "/", search := "" }, title := "", params := [], query := [] }

/-- A compiled matcher accepting exactly one pathname, with no named groups
(stands for a literal `URLPattern` such as `/a`). -/
def pathMatcher (p : String) : Url → Option (List (String × String)) :=
  fun u => if u.pathname = p then some [] else none

def uA : Url := { pathname := "/a", search := "" }

def uB : Url := { pathname := "/b", search := "" }

def uZ : Url := { pathname := "/zzz", search := "" }

def routeA : Route Nat := { path := "/a", matcher := pathMatcher "/a", title := .literal "A" }

def routeB : Route Nat := { path := "/b", matcher := pathMatcher "/b", title := .literal "B" }

/-- The context `_matchRoute` builds when `routeB` matches `/b`. -/
def ctxB : Context := { url := uB, title := "B", params := [], query := [] }

/-- C1/C2: a router currently on `routeA`, with no route for `/zzz` and a
default fallback `/` that no route matches either. -/
def exC1 : Router Nat := { routes := [routeA, routeB], context := ctx0, route := some routeA }

/-- C2 witness: same route table as `exC1` but different context/history. -/
def exC2t : Router Nat :=
  { routes := [routeA, routeB],
    context := { url := { pathname := "/q", search := "" }, title := "t", params := [], query := [] },
    history := ["old"] }

/-- A global guard plugin that always redirects to `/b`. -/
def pluginRedirectB : Plugin :=
  { shouldNavigate := some (fun _ => .ok (some { condition := .ok false, redirect := "/b" })) }

/-- A route plugin that throws exactly when consulted with a `/b` context. -/
def pluginThrowOnB : Plugin :=
  { shouldNavigate := some (fun c => if c.url.pathname = "/b" then .error "PA" else .ok none) }

/-- A route plugin whose guard always throws. -/
def pluginThrowPB : Plugin := { shouldNavigate := some (fun _ => .error "PB") }

def routeA3 : Route Nat :=
  { path := "/a", matcher := pathMatcher "/a", title := .literal "A", plugins := [pluginThrowOnB] }

def routeB3 : Route Nat :=
  { path := "/b", matcher := pathMatcher "/b", title := .literal "B", plugins := [pluginThrowPB] }

/-- C3: the originally matched route `/a` carries a plugin; a global guard
redirects to `/b`. -/
def ex3a : Router Nat := { routes := [routeA3, routeB], plugins := [pluginRedirectB], context := ctx0 }

/-- C3: the redirect target route `/b` carries an always-throwing plugin;
the originally matched route `/a` carries none. -/
def ex3b : Router Nat := { routes := [routeA, routeB3], plugins := [pluginRedirectB], context := ctx0 }

/-- A global plugin whose `shouldNavigate` guard always throws. -/
def pluginGuardThrow : Plugin := { shouldNavigate := some (fun _ => .error "GUARD") }

/-- A global plugin whose `beforeNavigation` hook always throws. -/
def pluginBeforeThrow : Plugin := { beforeNavigation := some (fun _ => .error "BEFORE") }

/-- A global plugin whose `afterNavigation` hook always throws. -/
def pluginAfterThrow : Plugin := { afterNavigation := some (fun _ => .error "AFTER") }

def exC4a : Router Nat := { routes := [routeA], plugins := [pluginGuardThrow], context := ctx0 }

def exC4b : Router Nat := { routes := [routeA], plugins := [pluginBeforeThrow], context := ctx0 }

def exC4c : Router Nat := { routes := [routeA], plugins := [pluginAfterThrow], context := ctx0 }

/-- C5: the guard descriptor `{condition: () => false, redirect: "/login"}`. -/
def guardLogin : Guard := { condition := .ok false, redirect := "/login" }

/-- C5: a global plugin whose `shouldNavigate` always returns `guardLogin`. -/
def pluginToLogin : Plugin := { shouldNavigate := some (fun _ => .ok (some guardLogin)) }

def routeLogin : Route Nat :=
  { path := "/login", matcher := pathMatcher "/login", title := .literal "Login" }

/-- The context `_matchRoute` builds when `routeLogin` matches `/login`. -/
def ctxLogin : Context :=
  { url := { pathname := "/login", search := "" }, title := "Login", params := [], query := [] }

def exC5 : Router Nat := { routes := [routeA, routeLogin], plugins := [pluginToLogin], context := ctx0 }

/-- C6: two routes whose matchers both accept `/x`; the earlier wins. -/
def routeX1 : Route Nat := { path := "/x", matcher := pathMatcher "/x", title := .literal "X1" }

def routeX2 : Route Nat := { path := "/x", matcher := pathMatcher "/x", title := .literal "X2" }

def uX : Url := { pathname := "/x", search := "" }

def exC6 : Router Nat := { routes := [routeX1, routeX2], context := ctx0 }

/-- C7: a route with a render function (producing `7`). -/
def routeR : Route Nat :=
  { path := "/a", matcher := pathMatcher "/a", title := .literal "A", render := some (fun _ => 7) }

def exRender : Router Nat := { routes := [routeR], context := ctx0, route := some routeR }

/-- C7 failing input: the current route defines no `render` function. -/
def exNoRender : Router Nat := { routes := [routeA], context := ctx0, route := some routeA }

def exNoRoute : Router Nat := { routes := [routeA], context := ctx0, route := none }

/-- C8: a plain two-route router for the double-navigation witness. -/
def exC8 : Router Nat := { routes := [routeA, routeB], context := ctx0 }

/-- C9: an anchor with `target="_blank"` on the composed path of a click. -/
def anchorBlank : PathElement := { tagName := "A", href := "/b", target := some "_blank" }

def evBlank : ClickEvent := { composedPath := [anchorBlank] }

def exC9 : Router Nat := { routes := [routeA, routeB], context := ctx0 }

/-- C10: a router whose fallback `/a` does match a route, while the popped
current URL `/zzz` matches none. -/
def exC10 : Router Nat :=
  { routes := [routeA], fallbackCfg := some "/a", context := ctx0, route := some routeA }

end AppRouter

namespace AppRouter

/-! ### Frame lemmas: which fields each operation can touch -/

/-- `t` agrees with `s` on every field except possibly `context` and `route`. -/
def FrameEq (s t : Router ρ) : Prop :=
  s.routes = t.routes ∧ s.plugins = t.plugins ∧ s.fallbackCfg = t.fallbackCfg ∧
  s.history = t.history ∧ s.docTitle = t.docTitle ∧ s.emitted = t.emitted ∧
  s.locationHref = t.locationHref

theorem frameEq_refl (s : Router ρ) : FrameEq s s :=
  ⟨rfl, rfl, rfl, rfl, rfl, rfl, rfl⟩

theorem frameEq_trans {s t w : Router ρ} (h1 : FrameEq s t) (h2 : FrameEq t w) :
    FrameEq s w := by
  obtain ⟨a1, a2, a3, a4, a5, a6, a7⟩ := h1
  obtain ⟨b1, b2, b3, b4, b5, b6, b7⟩ := h2
  exact ⟨a1.trans b1, a2.trans b2, a3.trans b3, a4.trans b4,
         a5.trans b5, a6.trans b6, a7.trans b7⟩

theorem matchRoute_frameEq (s : Router ρ) (u : Url) : FrameEq s (s.matchRoute u).1 := by
  unfold Router.matchRoute
  split
  · exact ⟨rfl, rfl, rfl, rfl, rfl, rfl, rfl⟩
  · exact frameEq_refl s

theorem resolveRoute_frameEq (s : Router ρ) (u : Url) : FrameEq s (resolveRoute s u) := by
  unfold resolveRoute
  split
  · next s1 r h =>
    have := matchRoute_frameEq s u
    rw [h] at this
    exact this
  · next s1 h =>
    split
    next s2 r2 h2 =>
    have h1 := matchRoute_frameEq s u
    rw [h] at h1
    have h3 := matchRoute_frameEq s1 s1.fallbackUrl
    rw [h2] at h3
    exact frameEq_trans h1 h3

theorem resolveRoute_routes (s : Router ρ) (u : Url) :
    (resolveRoute s u).routes = s.routes := (resolveRoute_frameEq s u).1.symm

theorem resolveRoute_plugins (s : Router ρ) (u : Url) :
    (resolveRoute s u).plugins = s.plugins := (resolveRoute_frameEq s u).2.1.symm

theorem guardLoop_frameEq (L : List Plugin) (s : Router ρ) (u : Url) :
    FrameEq s (guardLoop L s u).1 := by
  induction L generalizing s u with
  | nil => exact frameEq_refl s
  | cons p ps ih =>
    simp only [guardLoop]
    split
    · exact ih s u
    · split
      · exact frameEq_refl s
      · exact ih s u
      · split
        · exact frameEq_refl s
        · exact ih s u
        · exact frameEq_trans (resolveRoute_frameEq s _) (ih _ _)

end AppRouter

namespace AppRouter

/-! ### Guard / hook loop lemmas -/

theorem guardLoop_noGuards (L : List Plugin) (s : Router ρ) (u : Url)
    (h : ∀ p ∈ L, p.shouldNavigate = none) : guardLoop L s u = (s, u, none) := by
  induction L with
  | nil => rfl
  | cons p ps ih =>
    have hp := h p (List.mem_cons_self p ps)
    simp only [guardLoop, hp]
    exact ih (fun q hq => h q (List.mem_cons_of_mem p hq))

theorem guardLoop_append_ok (L1 L2 : List Plugin) (s t : Router ρ) (u u1 : Url)
    (h : guardLoop L1 s u = (t, u1, none)) :
    guardLoop (L1 ++ L2) s u = guardLoop L2 t u1 := by
  induction L1 generalizing s u with
  | nil =>
    simp only [guardLoop, Prod.mk.injEq] at h
    obtain ⟨h1, h2, -⟩ := h
    subst h1; subst h2
    simp only [List.nil_append]
  | cons p ps ih =>
    simp only [List.cons_append]
    simp only [guardLoop] at h ⊢
    split at h
    · next hp =>
      exact ih s u h
    · next f hp =>
      split at h
      · next e he =>
        simp only [Prod.mk.injEq] at h
        exact absurd h.2.2 (by simp)
      · next he => exact ih s u h
      · next g he =>
        split at h
        · next e hc =>
          simp only [Prod.mk.injEq] at h
          exact absurd h.2.2 (by simp)
        · next hc => exact ih s u h
        · next hc => exact ih (resolveRoute s (parseUrl g.redirect)) (parseUrl g.redirect) h

theorem beforeLoop_none (L : List Plugin) (c : Context)
    (h : ∀ p ∈ L, p.beforeNavigation = none) : beforeLoop L c = none := by
  induction L with
  | nil => rfl
  | cons p ps ih =>
    have hp := h p (List.mem_cons_self p ps)
    simp only [beforeLoop, hp]
    exact ih (fun q hq => h q (List.mem_cons_of_mem p hq))

theorem afterLoop_none (L : List Plugin) (c : Context)
    (h : ∀ p ∈ L, p.afterNavigation = none) : afterLoop L c = none := by
  induction L with
  | nil => rfl
  | cons p ps ih =>
    have hp := h p (List.mem_cons_self p ps)
    simp only [afterLoop, hp]
    exact ih (fun q hq => h q (List.mem_cons_of_mem p hq))

/-! ### `navigate` phase-decomposition lemmas -/

theorem navigate_guard_err (s : Router ρ) (u : Url) {s2 : Router ρ} {u2 : Url} {e : String}
    (hg : guardLoop (effectivePlugins (resolveRoute s u)) (resolveRoute s u) u = (s2, u2, some e)) :
    navigate s u = (s2, some e) := by
  simp only [navigate, hg]

theorem navigate_no_route (s : Router ρ) (u : Url) {s2 : Router ρ} {u2 : Url}
    (hg : guardLoop (effectivePlugins (resolveRoute s u)) (resolveRoute s u) u = (s2, u2, none))
    (hr : s2.route = none) :
    navigate s u = (s2, some ("[ROUTER] No route or fallback matched for url " ++ u2.href)) := by
  simp only [navigate, hg, hr]

theorem navigate_before_err (s : Router ρ) (u : Url) {s2 : Router ρ} {u2 : Url}
    {r : Route ρ} {e : String}
    (hg : guardLoop (effectivePlugins (resolveRoute s u)) (resolveRoute s u) u = (s2, u2, none))
    (hr : s2.route = some r)
    (hb : beforeLoop (effectivePlugins (resolveRoute s u)) s2.context = some e) :
    navigate s u = (s2, some e) := by
  simp only [navigate, hg, hr, hb]

theorem navigate_commit (s : Router ρ) (u : Url) {s2 : Router ρ} {u2 : Url} {r : Route ρ}
    (hg : guardLoop (effectivePlugins (resolveRoute s u)) (resolveRoute s u) u = (s2, u2, none))
    (hr : s2.route = some r)
    (hb : beforeLoop (effectivePlugins (resolveRoute s u)) s2.context = none) :
    navigate s u =
      (commit s2 u2, afterLoop (effectivePlugins (resolveRoute s u)) (commit s2 u2).context) := by
  simp only [navigate, hg, hr, hb]
  split
  · next e he => rw [he]
  · next he => rw [he]

end AppRouter

namespace AppRouter

/-! ### Shape lemmas for `_matchRoute` and the resolve step -/

theorem matchRoute_eq_some {s : Router ρ} {u : Url} {r : Route ρ} {c : Context}
    (h : matchRouteAux s.routes u = some (r, c)) :
    s.matchRoute u = ({ s with context := c }, some r) := by
  unfold Router.matchRoute
  simp only [h]

theorem matchRoute_eq_none {s : Router ρ} {u : Url}
    (h : matchRouteAux s.routes u = none) :
    s.matchRoute u = (s, none) := by
  unfold Router.matchRoute
  simp only [h]

theorem resolveRoute_eq_some {s : Router ρ} {u : Url} {r : Route ρ} {c : Context}
    (h : matchRouteAux s.routes u = some (r, c)) :
    resolveRoute s u = { s with context := c, route := some r } := by
  unfold resolveRoute Router.matchRoute
  simp only [h]

theorem resolveRoute_eq_fb_some {s : Router ρ} {u : Url} {r : Route ρ} {c : Context}
    (h1 : matchRouteAux s.routes u = none)
    (h2 : matchRouteAux s.routes s.fallbackUrl = some (r, c)) :
    resolveRoute s u = { s with context := c, route := some r } := by
  unfold resolveRoute Router.matchRoute
  simp only [h1, h2]

theorem resolveRoute_eq_none {s : Router ρ} {u : Url}
    (h1 : matchRouteAux s.routes u = none)
    (h2 : matchRouteAux s.routes s.fallbackUrl = none) :
    resolveRoute s u = { s with route := none } := by
  unfold resolveRoute Router.matchRoute
  simp only [h1, h2]

/-! ### Determinism: navigation depends only on routes, plugins, fallback,
context and route -/


theorem fallbackUrl_congr {s t : Router ρ} (h : s.fallbackCfg = t.fallbackCfg) :
    s.fallbackUrl = t.fallbackUrl := by
  unfold Router.fallbackUrl
  rw [h]

theorem matchRoute_navEq {s t : Router ρ} (u : Url) (h : NavEq s t) :
    (s.matchRoute u).2 = (t.matchRoute u).2 ∧ NavEq (s.matchRoute u).1 (t.matchRoute u).1 := by
  cases hm : matchRouteAux s.routes u with
  | some rc =>
    cases rc with
    | mk r c =>
      have hmt : matchRouteAux t.routes u = some (r, c) := by rw [← h.1]; exact hm
      rw [matchRoute_eq_some hm, matchRoute_eq_some hmt]
      exact ⟨rfl, h.1, h.2.1, h.2.2.1, rfl, h.2.2.2.2⟩
  | none =>
    have hmt : matchRouteAux t.routes u = none := by rw [← h.1]; exact hm
    rw [matchRoute_eq_none hm, matchRoute_eq_none hmt]
    exact ⟨rfl, h⟩

theorem resolveRoute_navEq {s t : Router ρ} (u : Url) (h : NavEq s t) :
    NavEq (resolveRoute s u) (resolveRoute t u) := by
  have hfb : s.fallbackUrl = t.fallbackUrl := fallbackUrl_congr h.2.2.1
  cases hm : matchRouteAux s.routes u with
  | some rc =>
    cases rc with
    | mk r c =>
      have hmt : matchRouteAux t.routes u = some (r, c) := by rw [← h.1]; exact hm
      rw [resolveRoute_eq_some hm, resolveRoute_eq_some hmt]
      exact ⟨h.1, h.2.1, h.2.2.1, rfl, rfl⟩
  | none =>
    have hmt : matchRouteAux t.routes u = none := by rw [← h.1]; exact hm
    cases hmf : matchRouteAux s.routes s.fallbackUrl with
    | some rc =>
      cases rc with
      | mk r c =>
        have hmft : matchRouteAux t.routes t.fallbackUrl = some (r, c) := by
          rw [← h.1, ← hfb]; exact hmf
        rw [resolveRoute_eq_fb_some hm hmf, resolveRoute_eq_fb_some hmt hmft]
        exact ⟨h.1, h.2.1, h.2.2.1, rfl, rfl⟩
    | none =>
      have hmft : matchRouteAux t.routes t.fallbackUrl = none := by
        rw [← h.1, ← hfb]; exact hmf
      rw [resolveRoute_eq_none hm hmf, resolveRoute_eq_none hmt hmft]
      exact ⟨h.1, h.2.1, h.2.2.1, h.2.2.2.1, rfl⟩

theorem effectivePlugins_navEq {s t : Router ρ} (h : NavEq s t) :
    effectivePlugins s = effectivePlugins t := by
  unfold effectivePlugins
  rw [h.2.1, h.2.2.2.2]

theorem commit_navEq {s t : Router ρ} (u : Url) (h : NavEq s t) :
    NavEq (commit s u) (commit t u) :=
  ⟨h.1, h.2.1, h.2.2.1, h.2.2.2.1, h.2.2.2.2⟩

theorem guardLoop_cons_noGuard {p : Plugin} {ps : List Plugin} {s : Router ρ} {u : Url}
    (hp : p.shouldNavigate = none) :
    guardLoop (p :: ps) s u = guardLoop ps s u := by
  simp only [guardLoop, hp]

theorem guardLoop_cons_err {p : Plugin} {ps : List Plugin} {s : Router ρ} {u : Url}
    {f : Context → Except String (Option Guard)} {e : String}
    (hp : p.shouldNavigate = some f) (hf : f s.context = .error e) :
    guardLoop (p :: ps) s u = (s, u, some e) := by
  simp only [guardLoop, hp, hf]

theorem guardLoop_cons_skip {p : Plugin} {ps : List Plugin} {s : Router ρ} {u : Url}
    {f : Context → Except String (Option Guard)}
    (hp : p.shouldNavigate = some f) (hf : f s.context = .ok none) :
    guardLoop (p :: ps) s u = guardLoop ps s u := by
  simp only [guardLoop, hp, hf]

theorem guardLoop_cons_condErr {p : Plugin} {ps : List Plugin} {s : Router ρ} {u : Url}
    {f : Context → Except String (Option Guard)} {g : Guard} {e : String}
    (hp : p.shouldNavigate = some f) (hf : f s.context = .ok (some g))
    (hg : g.condition = .error e) :
    guardLoop (p :: ps) s u = (s, u, some e) := by
  simp only [guardLoop, hp, hf, hg]

theorem guardLoop_cons_condTrue {p : Plugin} {ps : List Plugin} {s : Router ρ} {u : Url}
    {f : Context → Except String (Option Guard)} {g : Guard}
    (hp : p.shouldNavigate = some f) (hf : f s.context = .ok (some g))
    (hg : g.condition = .ok true) :
    guardLoop (p :: ps) s u = guardLoop ps s u := by
  simp only [guardLoop, hp, hf, hg]

theorem guardLoop_cons_redirect {p : Plugin} {ps : List Plugin} {s : Router ρ} {u : Url}
    {f : Context → Except String (Option Guard)} {g : Guard}
    (hp : p.shouldNavigate = some f) (hf : f s.context = .ok (some g))
    (hg : g.condition = .ok false) :
    guardLoop (p :: ps) s u =
      guardLoop ps (resolveRoute s (parseUrl g.redirect)) (parseUrl g.redirect) := by
  simp only [guardLoop, hp, hf, hg]

theorem guardLoop_navEq (L : List Plugin) {s t : Router ρ} (u : Url) (h : NavEq s t) :
    (guardLoop L s u).2 = (guardLoop L t u).2 ∧
    NavEq (guardLoop L s u).1 (guardLoop L t u).1 := by
  induction L generalizing s t u with
  | nil => exact ⟨rfl, h⟩
  | cons p ps ih =>
    have hc : s.context = t.context := h.2.2.2.1
    cases hp : p.shouldNavigate with
    | none =>
      rw [guardLoop_cons_noGuard hp, guardLoop_cons_noGuard hp]
      exact ih u h
    | some f =>
      cases hf : f s.context with
      | error e =>
        have hft : f t.context = .error e := by rw [← hc]; exact hf
        rw [guardLoop_cons_err hp hf, guardLoop_cons_err hp hft]
        exact ⟨rfl, h⟩
      | ok og =>
        cases og with
        | none =>
          have hft : f t.context = .ok none := by rw [← hc]; exact hf
          rw [guardLoop_cons_skip hp hf, guardLoop_cons_skip hp hft]
          exact ih u h
        | some g =>
          have hft : f t.context = .ok (some g) := by rw [← hc]; exact hf
          cases hg : g.condition with
          | error e =>
            rw [guardLoop_cons_condErr hp hf hg, guardLoop_cons_condErr hp hft hg]
            exact ⟨rfl, h⟩
          | ok b =>
            cases b with
            | true =>
              rw [guardLoop_cons_condTrue hp hf hg, guardLoop_cons_condTrue hp hft hg]
              exact ih u h
            | false =>
              rw [guardLoop_cons_redirect hp hf hg, guardLoop_cons_redirect hp hft hg]
              exact ih (parseUrl g.redirect) (resolveRoute_navEq (parseUrl g.redirect) h)

end AppRouter

namespace AppRouter

theorem resolveRoute_reset {s t : Router ρ} (u : Url)
    (hr : s.routes = t.routes) (hp : s.plugins = t.plugins) (hf : s.fallbackCfg = t.fallbackCfg)
    (hres : matchRouteAux s.routes u ≠ none ∨ matchRouteAux s.routes s.fallbackUrl ≠ none) :
    NavEq (resolveRoute s u) (resolveRoute t u) := by
  have hfb : s.fallbackUrl = t.fallbackUrl := fallbackUrl_congr hf
  cases hm : matchRouteAux s.routes u with
  | some rc =>
    cases rc with
    | mk r c =>
      have hmt : matchRouteAux t.routes u = some (r, c) := by rw [← hr]; exact hm
      rw [resolveRoute_eq_some hm, resolveRoute_eq_some hmt]
      exact ⟨hr, hp, hf, rfl, rfl⟩
  | none =>
    have hmt : matchRouteAux t.routes u = none := by rw [← hr]; exact hm
    cases hmf : matchRouteAux s.routes s.fallbackUrl with
    | some rc =>
      cases rc with
      | mk r c =>
        have hmft : matchRouteAux t.routes t.fallbackUrl = some (r, c) := by
          rw [← hr, ← hfb]; exact hmf
        rw [resolveRoute_eq_fb_some hm hmf, resolveRoute_eq_fb_some hmt hmft]
        exact ⟨hr, hp, hf, rfl, rfl⟩
    | none =>
      cases hres with
      | inl h1 => exact absurd hm h1
      | inr h2 => exact absurd hmf h2

theorem navigate_navEqResolve {s t : Router ρ} (u : Url)
    (h : NavEq (resolveRoute s u) (resolveRoute t u)) :
    (navigate s u).2 = (navigate t u).2 ∧ NavEq (navigate s u).1 (navigate t u).1 := by
  have hL : effectivePlugins (resolveRoute s u) = effectivePlugins (resolveRoute t u) :=
    effectivePlugins_navEq h
  obtain ⟨hu, hn⟩ := guardLoop_navEq (effectivePlugins (resolveRoute s u)) u h
  rcases hgs : guardLoop (effectivePlugins (resolveRoute s u)) (resolveRoute s u) u with ⟨s2, u2, es⟩
  rcases hgt : guardLoop (effectivePlugins (resolveRoute t u)) (resolveRoute t u) u with ⟨t2, u3, et⟩
  have hgt2 : guardLoop (effectivePlugins (resolveRoute s u)) (resolveRoute t u) u = (t2, u3, et) := by
    rw [hL]; exact hgt
  rw [hgs, hgt2] at hu hn
  simp only [Prod.mk.injEq] at hu
  obtain ⟨hu1, hu2⟩ := hu
  subst hu1
  subst hu2
  cases es with
  | some e =>
    rw [navigate_guard_err s u hgs, navigate_guard_err t u hgt]
    exact ⟨rfl, hn⟩
  | none =>
    have hrr : s2.route = t2.route := hn.2.2.2.2
    cases hr : s2.route with
    | none =>
      have hrt : t2.route = none := by rw [← hrr]; exact hr
      rw [navigate_no_route s u hgs hr, navigate_no_route t u hgt hrt]
      exact ⟨rfl, hn⟩
    | some r =>
      have hrt : t2.route = some r := by rw [← hrr]; exact hr
      have hcc : s2.context = t2.context := hn.2.2.2.1
      cases hb : beforeLoop (effectivePlugins (resolveRoute s u)) s2.context with
      | some e =>
        have hbt : beforeLoop (effectivePlugins (resolveRoute t u)) t2.context = some e := by
          rw [← hL, ← hcc]; exact hb
        rw [navigate_before_err s u hgs hr hb, navigate_before_err t u hgt hrt hbt]
        exact ⟨rfl, hn⟩
      | none =>
        have hbt : beforeLoop (effectivePlugins (resolveRoute t u)) t2.context = none := by
          rw [← hL, ← hcc]; exact hb
        rw [navigate_commit s u hgs hr hb, navigate_commit t u hgt hrt hbt]
        have hcc2 : (commit s2 u2).context = (commit t2 u2).context := hcc
        constructor
        · rw [← hL, hcc2]
        · exact commit_navEq u2 hn

theorem navigate_cfg (s : Router ρ) (u : Url) :
    (navigate s u).1.routes = s.routes ∧ (navigate s u).1.plugins = s.plugins ∧
    (navigate s u).1.fallbackCfg = s.fallbackCfg := by
  have hf1 := resolveRoute_frameEq s u
  rcases hgs : guardLoop (effectivePlugins (resolveRoute s u)) (resolveRoute s u) u with ⟨s2, u2, es⟩
  have hf2 := guardLoop_frameEq (effectivePlugins (resolveRoute s u)) (resolveRoute s u) u
  rw [hgs] at hf2
  have hf := frameEq_trans hf1 hf2
  cases es with
  | some e =>
    rw [navigate_guard_err s u hgs]
    exact ⟨hf.1.symm, hf.2.1.symm, hf.2.2.1.symm⟩
  | none =>
    cases hr : s2.route with
    | none =>
      rw [navigate_no_route s u hgs hr]
      exact ⟨hf.1.symm, hf.2.1.symm, hf.2.2.1.symm⟩
    | some r =>
      cases hb : beforeLoop (effectivePlugins (resolveRoute s u)) s2.context with
      | some e =>
        rw [navigate_before_err s u hgs hr hb]
        exact ⟨hf.1.symm, hf.2.1.symm, hf.2.2.1.symm⟩
      | none =>
        rw [navigate_commit s u hgs hr hb]
        exact ⟨hf.1.symm, hf.2.1.symm, hf.2.2.1.symm⟩

theorem navigate_success_shape (s : Router ρ) (u : Url) (h : (navigate s u).2 = none) :
    (navigate s u).1.emitted = s.emitted ++ [(navigate s u).1.context] := by
  have hf1 := resolveRoute_frameEq s u
  rcases hgs : guardLoop (effectivePlugins (resolveRoute s u)) (resolveRoute s u) u with ⟨s2, u2, es⟩
  have hf2 := guardLoop_frameEq (effectivePlugins (resolveRoute s u)) (resolveRoute s u) u
  rw [hgs] at hf2
  have hf := frameEq_trans hf1 hf2
  cases es with
  | some e => rw [navigate_guard_err s u hgs] at h; exact absurd h (by simp)
  | none =>
    cases hr : s2.route with
    | none => rw [navigate_no_route s u hgs hr] at h; exact absurd h (by simp)
    | some r =>
      cases hb : beforeLoop (effectivePlugins (resolveRoute s u)) s2.context with
      | some e => rw [navigate_before_err s u hgs hr hb] at h; exact absurd h (by simp)
      | none =>
        rw [navigate_commit s u hgs hr hb]
        show (commit s2 u2).emitted = s.emitted ++ [(commit s2 u2).context]
        show s2.emitted ++ [s2.context] = s.emitted ++ [s2.context]
        rw [hf.2.2.2.2.2.1]

end AppRouter

namespace AppRouter

/-! ### First-match characterization of the route table -/

theorem matchRouteAux_first (routes : List (Route ρ)) (u : Url) (i : Nat)
    (hi : i < routes.length)
    (hacc : ((routes.get ⟨i, hi⟩).matcher u).isSome = true)
    (hmin : ∀ j (hj : j < routes.length),
      ((routes.get ⟨j, hj⟩).matcher u).isSome = true → i ≤ j) :
    ∃ c, matchRouteAux routes u = some (routes.get ⟨i, hi⟩, c) := by
  induction routes generalizing i with
  | nil => exact absurd hi (Nat.not_lt_zero i)
  | cons r rs ih =>
    cases hm : r.matcher u with
    | some groups =>
      have h0 : i = 0 := by
        have hz := hmin 0 (Nat.succ_pos rs.length) (by simp [List.get, hm])
        omega
      subst h0
      refine ⟨{ url := u,
                title := resolveTitle r.title groups (fromEntries (parseSearch u.search)) u,
                params := groups,
                query := fromEntries (parseSearch u.search) }, ?_⟩
      simp only [matchRouteAux, hm, List.get]
    | none =>
      cases i with
      | zero =>
        have hz : (r.matcher u).isSome = true := hacc
        rw [hm] at hz
        simp at hz
      | succ n =>
        have hn : n < rs.length := Nat.lt_of_succ_lt_succ hi
        have hacc2 : ((rs.get ⟨n, hn⟩).matcher u).isSome = true := hacc
        have hmin2 : ∀ j (hj : j < rs.length),
            ((rs.get ⟨j, hj⟩).matcher u).isSome = true → n ≤ j := by
          intro j hj hj2
          have h3 : (((r :: rs).get ⟨j + 1, Nat.succ_lt_succ hj⟩).matcher u).isSome = true := hj2
          have h4 := hmin (j + 1) (Nat.succ_lt_succ hj) h3
          omega
        obtain ⟨c, hc⟩ := ih n hn hacc2 hmin2
        refine ⟨c, ?_⟩
        simp only [matchRouteAux, hm]
        exact hc

end AppRouter


namespace AppRouter

/-! ### Claim C1 -/

/-- C1 counterexample: at the concrete router `exC1` (current route
`routeA`) and the unroutable target `/zzz` (fallback `/` also unroutable),
`navigate` does throw the unroutable error and pushes no history entry,
but the current route does not remain unchanged: the failed resolve step
clears `this.route` to null before the error is thrown. -/
theorem c1_route_cleared_cex :
    matchRouteAux exC1.routes uZ = none ∧
    matchRouteAux exC1.routes exC1.fallbackUrl = none ∧
    (navigate exC1 uZ).2.isSome = true ∧
    exC1.route.isSome = true ∧
    (navigate exC1 uZ).1.route = none :=
  ⟨rfl, rfl, rfl, rfl, rfl⟩

/-- C1 (amended): when no route matches the target URL and none matches the
fallback URL, and no global plugin defines a `shouldNavigate` guard (a
guard could still rescue the navigation by redirecting), `navigate`
propagates the unroutable-URL error to its caller; no history entry is
pushed, and the current context, history, document title and emitted
notifications are unchanged — but the current route is cleared to null by
the failed resolve rather than left unchanged. -/
theorem c1_unroutable_no_commit (s : Router ρ) (u : Url)
    (hu : matchRouteAux s.routes u = none)
    (hf : matchRouteAux s.routes s.fallbackUrl = none)
    (hp : ∀ p ∈ s.plugins, p.shouldNavigate = none) :
    (navigate s u).2 = some ("[ROUTER] No route or fallback matched for url " ++ u.href) ∧
    (navigate s u).1.history = s.history ∧
    (navigate s u).1.context = s.context ∧
    (navigate s u).1.docTitle = s.docTitle ∧
    (navigate s u).1.emitted = s.emitted ∧
    (navigate s u).1.route = none := by
  have hres : resolveRoute s u = { s with route := none } := resolveRoute_eq_none hu hf
  have hL : effectivePlugins (resolveRoute s u) = s.plugins := by
    rw [hres]
    unfold effectivePlugins
    simp
  have hg : guardLoop s.plugins ({ s with route := none } : Router ρ) u =
      ({ s with route := none }, u, none) :=
    guardLoop_noGuards s.plugins _ u hp
  have hg2 : guardLoop (effectivePlugins (resolveRoute s u)) (resolveRoute s u) u =
      ({ s with route := none }, u, none) := by
    rw [hL, hres]
    exact hg
  have hr : ({ s with route := none } : Router ρ).route = none := rfl
  rw [navigate_no_route s u hg2 hr]
  exact ⟨rfl, rfl, rfl, rfl, rfl, rfl⟩

/-- C1 witness: the amended theorem evaluated at `exC1` and `/zzz`. -/
theorem c1_unroutable_no_commit_witness :
    (navigate exC1 uZ).2 =
      some ("[ROUTER] No route or fallback matched for url " ++ uZ.href) ∧
    (navigate exC1 uZ).1.history = exC1.history ∧
    (navigate exC1 uZ).1.context = exC1.context ∧
    (navigate exC1 uZ).1.docTitle = exC1.docTitle ∧
    (navigate exC1 uZ).1.emitted = exC1.emitted ∧
    (navigate exC1 uZ).1.route = none :=
  c1_unroutable_no_commit exC1 uZ rfl rfl
    (fun p hp => absurd hp (List.not_mem_nil p))

/-! ### Claim C2 -/

/-- C2 counterexample: matching is not free of shared-state mutation — at
the concrete router `exC1` and URL `/b`, the `_matchRoute` step itself
overwrites the router's current context. -/
theorem c2_matchRoute_mutates_cex :
    (Router.matchRoute exC1 uB).1.context ≠ exC1.context := by
  decide

/-- C2 (amended): the match *result* is pure — it depends only on the Route
Table and the URL — and `_matchRoute` leaves every field other than the
current context unchanged (and the whole state unchanged on no-match); but
`_matchRoute` itself assigns the freshly built context into the router's
current context on every successful match call (so during one navigation
the assignment happens at each successful match — including fallback and
guard-redirect re-matches — rather than exactly once by the caller). -/
theorem c2_match_result_pure (s t : Router ρ) (u : Url) (h : s.routes = t.routes) :
    (s.matchRoute u).2 = (t.matchRoute u).2 ∧
    FrameEq s (s.matchRoute u).1 ∧
    ((s.matchRoute u).2 = none → (s.matchRoute u).1 = s) ∧
    (∀ r c, matchRouteAux s.routes u = some (r, c) →
      (s.matchRoute u).1 = { s with context := c }) := by
  have hres : (s.matchRoute u).2 = (t.matchRoute u).2 := by
    cases hm : matchRouteAux s.routes u with
    | some rc =>
      cases rc with
      | mk r c =>
        have hmt : matchRouteAux t.routes u = some (r, c) := by rw [← h]; exact hm
        rw [matchRoute_eq_some hm, matchRoute_eq_some hmt]
    | none =>
      have hmt : matchRouteAux t.routes u = none := by rw [← h]; exact hm
      rw [matchRoute_eq_none hm, matchRoute_eq_none hmt]
  refine ⟨hres, matchRoute_frameEq s u, ?_, ?_⟩
  · intro hnone
    cases hm : matchRouteAux s.routes u with
    | some rc =>
      cases rc with
      | mk r c =>
        rw [matchRoute_eq_some hm] at hnone
        exact absurd hnone (by simp)
    | none => rw [matchRoute_eq_none hm]
  · intro r c hm
    rw [matchRoute_eq_some hm]

end AppRouter

namespace AppRouter

/-- C2 witness: the amended theorem evaluated at `exC1`, `exC2t` and `/b`. -/
theorem c2_match_result_pure_witness :
    (Router.matchRoute exC1 uB).2 = (Router.matchRoute exC2t uB).2 ∧
    FrameEq exC1 (Router.matchRoute exC1 uB).1 ∧
    ((Router.matchRoute exC1 uB).2 = none → (Router.matchRoute exC1 uB).1 = exC1) ∧
    (∀ r c, matchRouteAux exC1.routes uB = some (r, c) →
      (Router.matchRoute exC1 uB).1 = { exC1 with context := c }) :=
  c2_match_result_pure exC1 exC2t uB rfl

/-! ### Claim C3 -/

/-- C3 counterexample: the guard loop continues over the plugin list
computed for the originally matched route, not the newly resolved one. At
`ex3a`, after the global guard redirects `/a → /b`, the originally matched
route's plugin `pluginThrowOnB` is still consulted (with the new `/b`
context) and its error propagates out of `navigate`; at `ex3b`, the newly
resolved route's plugin `pluginThrowPB` is never consulted — navigation
commits `/b` without error although that plugin's guard always throws.
Under the claimed behaviour the two outcomes would be reversed. -/
theorem c3_original_plugin_list_cex :
    (navigate ex3a uA).2 = some "PA" ∧
    (navigate ex3b uA).2 = none ∧
    (navigate ex3b uA).1.context.url = uB ∧
    (navigate ex3b uA).1.route.isSome = true :=
  ⟨rfl, rfl, rfl, rfl⟩

/-- C3 (amended): the effective plugin list is the global plugins followed
by the originally matched route's plugins (stable order, no
deduplication), computed once after the initial Resolve; whenever a
guard's condition evaluates false, the target is recomputed from the
guard's redirect, Resolve re-runs (fallback included), and the guard loop
then continues over the remainder of that originally computed list —
independent of the newly resolved route's plugin list. -/
theorem c3_guard_list_fixed (s t : Router ρ) (u u1 : Url) (L1 L2 : List Plugin) (p : Plugin)
    (f : Context → Except String (Option Guard)) (g : Guard)
    (hL1 : guardLoop L1 (resolveRoute s u) u = (t, u1, none))
    (hp : p.shouldNavigate = some f)
    (hf : f t.context = .ok (some g))
    (hc : g.condition = .ok false) :
    effectivePlugins (resolveRoute s u) =
      s.plugins ++ (match (resolveRoute s u).route with
        | some r => r.plugins
        | none => []) ∧
    guardLoop (L1 ++ p :: L2) (resolveRoute s u) u =
      guardLoop L2 (resolveRoute t (parseUrl g.redirect)) (parseUrl g.redirect) := by
  constructor
  · unfold effectivePlugins
    rw [resolveRoute_plugins]
  · rw [guardLoop_append_ok L1 (p :: L2) (resolveRoute s u) t u u1 hL1,
        guardLoop_cons_redirect hp hf hc]

/-- C3 witness: the amended theorem evaluated at `ex3a` with the global
redirect guard first in the list and the original route's plugin after it. -/
theorem c3_guard_list_fixed_witness :
    (effectivePlugins (resolveRoute ex3a uA) =
      ex3a.plugins ++ (match (resolveRoute ex3a uA).route with
        | some r => r.plugins
        | none => [])) ∧
    guardLoop ([] ++ pluginRedirectB :: [pluginThrowOnB]) (resolveRoute ex3a uA) uA =
      guardLoop [pluginThrowOnB] (resolveRoute (resolveRoute ex3a uA) (parseUrl "/b"))
        (parseUrl "/b") :=
  c3_guard_list_fixed ex3a (resolveRoute ex3a uA) uA uA [] [pluginThrowOnB] pluginRedirectB
    (fun _ => .ok (some { condition := .ok false, redirect := "/b" }))
    { condition := .ok false, redirect := "/b" } rfl rfl rfl rfl

/-! ### Claim C6 -/

/-- C6: route-table order is match priority — matching returns the
earliest-registered route whose compiled matcher accepts the URL
(iteration stops at the first success, so of any pair of accepting routes
the earlier-registered one wins). -/
theorem c6_first_match_wins (s : Router ρ) (u : Url) (i : Nat) (hi : i < s.routes.length)
    (hacc : ((s.routes.get ⟨i, hi⟩).matcher u).isSome = true)
    (hmin : ∀ j (hj : j < s.routes.length),
      ((s.routes.get ⟨j, hj⟩).matcher u).isSome = true → i ≤ j) :
    (s.matchRoute u).2 = some (s.routes.get ⟨i, hi⟩) := by
  obtain ⟨c, hc⟩ := matchRouteAux_first s.routes u i hi hacc hmin
  rw [matchRoute_eq_some hc]

/-- C6 witness: both routes of `exC6` match `/x`; the earlier one wins. -/
theorem c6_first_match_wins_witness :
    (Router.matchRoute exC6 uX).2 = some (exC6.routes.get ⟨0, by decide⟩) :=
  c6_first_match_wins exC6 uX 0 (by decide) (by decide) (fun j hj hx => Nat.zero_le j)

/-! ### Claim C7 -/

/-- C7 (code bug): `render()` is `this.route?.render({...})` — the optional
chain guards only `this.route`, not the `render` property, although the
source's own `RouteDefinition` typedef declares `render?:` optional. With
no current route it returns undefined as claimed, and with a render
function present it returns its result; but with a current route that
defines no `render`, the call `undefined(...)` throws a TypeError instead
of returning undefined. -/
theorem c7_render_no_render_throws :
    exNoRender.render = .error "TypeError: this.route.render is not a function" ∧
    exNoRoute.render = .ok none ∧
    exRender.render = .ok (some 7) :=
  ⟨rfl, rfl, rfl⟩

/-! ### Claim C10 -/

/-- C10: on popstate only the current URL is matched and the fallback is
never consulted — when no route matches the popped URL the current route
becomes null, the current context keeps its previous (now stale) value,
no history entry is pushed, and the change notification is still emitted
carrying that stale context; this holds whatever the fallback
configuration is, even one whose URL a route would match. -/
theorem c10_popstate_no_fallback (s : Router ρ) (cur : Url)
    (hnone : matchRouteAux s.routes cur = none) :
    (onPopState s cur).route = none ∧
    (onPopState s cur).context = s.context ∧
    (onPopState s cur).emitted = s.emitted ++ [s.context] ∧
    (onPopState s cur).history = s.history ∧
    ∀ fb, (onPopState { s with fallbackCfg := fb } cur).route = none := by
  have hm := matchRoute_eq_none hnone
  unfold onPopState
  rw [hm]
  refine ⟨rfl, rfl, rfl, rfl, ?_⟩
  intro fb
  have hnone2 : matchRouteAux ({ s with fallbackCfg := fb } : Router ρ).routes cur = none :=
    hnone
  have hm2 := matchRoute_eq_none hnone2
  rw [hm2]

/-- C10 witness: `exC10`'s fallback `/a` does match a route, yet popping to
the unroutable `/zzz` nulls the route, keeps the old context and emits it. -/
theorem c10_popstate_no_fallback_witness :
    (onPopState exC10 uZ).route = none ∧
    (onPopState exC10 uZ).context = exC10.context ∧
    (onPopState exC10 uZ).emitted = exC10.emitted ++ [exC10.context] ∧
    (onPopState exC10 uZ).history = exC10.history ∧
    ∀ fb, (onPopState { exC10 with fallbackCfg := fb } uZ).route = none :=
  c10_popstate_no_fallback exC10 uZ rfl

end AppRouter

namespace AppRouter

/-! ### Claim C4 -/

/-- C4: a hook error in the guard (`shouldNavigate`) or before
(`beforeNavigation`) phase propagates out of `navigate` and prevents the
commit — no history entry is pushed, the document title is untouched, and
no change notification is emitted; a hook error in the after
(`afterNavigation`) phase also propagates out of `navigate` but the
already-performed history push, title update and change notification
remain in place. -/
theorem c4_hook_error_phases (s : Router ρ) (u : Url) :
    (∀ (s2 : Router ρ) (u2 : Url) (e : String),
      guardLoop (effectivePlugins (resolveRoute s u)) (resolveRoute s u) u = (s2, u2, some e) →
      navigate s u = (s2, some e) ∧ s2.history = s.history ∧ s2.docTitle = s.docTitle ∧
        s2.emitted = s.emitted) ∧
    (∀ (s2 : Router ρ) (u2 : Url) (r : Route ρ) (e : String),
      guardLoop (effectivePlugins (resolveRoute s u)) (resolveRoute s u) u = (s2, u2, none) →
      s2.route = some r →
      beforeLoop (effectivePlugins (resolveRoute s u)) s2.context = some e →
      navigate s u = (s2, some e) ∧ s2.history = s.history ∧ s2.docTitle = s.docTitle ∧
        s2.emitted = s.emitted) ∧
    (∀ (s2 : Router ρ) (u2 : Url) (r : Route ρ) (e : String),
      guardLoop (effectivePlugins (resolveRoute s u)) (resolveRoute s u) u = (s2, u2, none) →
      s2.route = some r →
      beforeLoop (effectivePlugins (resolveRoute s u)) s2.context = none →
      afterLoop (effectivePlugins (resolveRoute s u)) (commit s2 u2).context = some e →
      navigate s u = (commit s2 u2, some e) ∧
      (commit s2 u2).history = s.history ++ [u2.pathname ++ u2.search] ∧
      (commit s2 u2).docTitle = s2.context.title ∧
      (commit s2 u2).emitted = s.emitted ++ [s2.context]) := by
  refine ⟨?_, ?_, ?_⟩
  · intro s2 u2 e hg
    have hfr2 := guardLoop_frameEq (effectivePlugins (resolveRoute s u)) (resolveRoute s u) u
    rw [hg] at hfr2
    have hfr := frameEq_trans (resolveRoute_frameEq s u) hfr2
    exact ⟨navigate_guard_err s u hg, hfr.2.2.2.1.symm, hfr.2.2.2.2.1.symm,
      hfr.2.2.2.2.2.1.symm⟩
  · intro s2 u2 r e hg hr hb
    have hfr2 := guardLoop_frameEq (effectivePlugins (resolveRoute s u)) (resolveRoute s u) u
    rw [hg] at hfr2
    have hfr := frameEq_trans (resolveRoute_frameEq s u) hfr2
    exact ⟨navigate_before_err s u hg hr hb, hfr.2.2.2.1.symm, hfr.2.2.2.2.1.symm,
      hfr.2.2.2.2.2.1.symm⟩
  · intro s2 u2 r e hg hr hb ha
    have hfr2 := guardLoop_frameEq (effectivePlugins (resolveRoute s u)) (resolveRoute s u) u
    rw [hg] at hfr2
    have hfr := frameEq_trans (resolveRoute_frameEq s u) hfr2
    have hnav := navigate_commit s u hg hr hb
    rw [ha] at hnav
    refine ⟨hnav, ?_, rfl, ?_⟩
    · show s2.history ++ [u2.pathname ++ u2.search] = s.history ++ [u2.pathname ++ u2.search]
      rw [hfr.2.2.2.1]
    · show s2.emitted ++ [s2.context] = s.emitted ++ [s2.context]
      rw [hfr.2.2.2.2.2.1]

/-- C4 witness: the theorem evaluated at three one-plugin routers whose
guard, before and after hooks respectively throw. -/
theorem c4_hook_error_phases_witness :
    (navigate exC4a uA = (resolveRoute exC4a uA, some "GUARD") ∧
      (resolveRoute exC4a uA).history = exC4a.history ∧
      (resolveRoute exC4a uA).docTitle = exC4a.docTitle ∧
      (resolveRoute exC4a uA).emitted = exC4a.emitted) ∧
    (navigate exC4b uA = (resolveRoute exC4b uA, some "BEFORE") ∧
      (resolveRoute exC4b uA).history = exC4b.history ∧
      (resolveRoute exC4b uA).docTitle = exC4b.docTitle ∧
      (resolveRoute exC4b uA).emitted = exC4b.emitted) ∧
    (navigate exC4c uA = (commit (resolveRoute exC4c uA) uA, some "AFTER") ∧
      (commit (resolveRoute exC4c uA) uA).history =
        exC4c.history ++ [uA.pathname ++ uA.search] ∧
      (commit (resolveRoute exC4c uA) uA).docTitle = (resolveRoute exC4c uA).context.title ∧
      (commit (resolveRoute exC4c uA) uA).emitted =
        exC4c.emitted ++ [(resolveRoute exC4c uA).context]) :=
  ⟨(c4_hook_error_phases exC4a uA).1 (resolveRoute exC4a uA) uA "GUARD" rfl,
   (c4_hook_error_phases exC4b uA).2.1 (resolveRoute exC4b uA) uA routeA "BEFORE" rfl rfl rfl,
   (c4_hook_error_phases exC4c uA).2.2 (resolveRoute exC4c uA) uA routeA "AFTER" rfl rfl rfl rfl⟩

/-! ### Claim C5 -/

/-- C5: if the effective plugin list contains one guard plugin whose
`shouldNavigate` always returns `{condition: false, redirect: "/login"}`
(no other plugin defines `shouldNavigate`, and no before/after hook is
defined, matching the spec's single-plugin scenario), and `/login` matches
a route, then the navigation that finally commits — history push, title,
change notification — is for the route matching `/login`, not the
originally requested URL. -/
theorem c5_guard_redirect_commits_login (s : Router ρ) (u : Url) (L1 L2 : List Plugin)
    (p : Plugin) (f : Context → Except String (Option Guard)) (g : Guard)
    (rL : Route ρ) (cL : Context)
    (hL : effectivePlugins (resolveRoute s u) = L1 ++ p :: L2)
    (hno1 : ∀ q ∈ L1, q.shouldNavigate = none)
    (hno2 : ∀ q ∈ L2, q.shouldNavigate = none)
    (hp : p.shouldNavigate = some f)
    (hf : ∀ c, f c = .ok (some g))
    (hcond : g.condition = .ok false)
    (hred : g.redirect = "/login")
    (hhooks : ∀ q ∈ L1 ++ p :: L2, q.beforeNavigation = none ∧ q.afterNavigation = none)
    (hmatch : matchRouteAux s.routes (parseUrl "/login") = some (rL, cL)) :
    (navigate s u).2 = none ∧
    (navigate s u).1.route = some rL ∧
    (navigate s u).1.context = cL ∧
    (navigate s u).1.history = s.history ++ ["/login"] ∧
    (navigate s u).1.docTitle = cL.title ∧
    (navigate s u).1.emitted = s.emitted ++ [cL] := by
  have hg1 : guardLoop L1 (resolveRoute s u) u = (resolveRoute s u, u, none) :=
    guardLoop_noGuards L1 _ u hno1
  have hrw : parseUrl g.redirect = parseUrl "/login" := by rw [hred]
  have hm2 : matchRouteAux (resolveRoute s u).routes (parseUrl "/login") = some (rL, cL) := by
    rw [resolveRoute_routes]; exact hmatch
  have hs2 : resolveRoute (resolveRoute s u) (parseUrl "/login") =
      { resolveRoute s u with context := cL, route := some rL } :=
    resolveRoute_eq_some hm2
  have hgAll : guardLoop (effectivePlugins (resolveRoute s u)) (resolveRoute s u) u =
      ({ resolveRoute s u with context := cL, route := some rL }, parseUrl "/login", none) := by
    rw [hL, guardLoop_append_ok L1 (p :: L2) (resolveRoute s u) (resolveRoute s u) u u hg1,
        guardLoop_cons_redirect hp (hf _) hcond, hrw, hs2]
    exact guardLoop_noGuards L2 _ _ hno2
  have hr2 : ({ resolveRoute s u with context := cL, route := some rL } : Router ρ).route
      = some rL := rfl
  have hbef : beforeLoop (effectivePlugins (resolveRoute s u))
      ({ resolveRoute s u with context := cL, route := some rL } : Router ρ).context = none :=
    beforeLoop_none _ _ (fun q hq => (hhooks q (hL ▸ hq)).1)
  have hnav := navigate_commit s u hgAll hr2 hbef
  have haft : afterLoop (effectivePlugins (resolveRoute s u))
      (commit ({ resolveRoute s u with context := cL, route := some rL }) (parseUrl "/login")).context
      = none :=
    afterLoop_none _ _ (fun q hq => (hhooks q (hL ▸ hq)).2)
  rw [haft] at hnav
  rw [hnav]
  have hfr := resolveRoute_frameEq s u
  have hpath : (parseUrl "/login").pathname ++ (parseUrl "/login").search = "/login" := by
    decide
  refine ⟨rfl, rfl, rfl, ?_, rfl, ?_⟩
  · show (resolveRoute s u).history ++ [(parseUrl "/login").pathname ++ (parseUrl "/login").search]
      = s.history ++ ["/login"]
    rw [hpath, ← hfr.2.2.2.1]
  · show (resolveRoute s u).emitted ++ [cL] = s.emitted ++ [cL]
    rw [← hfr.2.2.2.2.2.1]

/-- C5 witness: the theorem evaluated at `exC5` — a single global plugin
redirecting to `/login` — navigating to `/a`. -/
theorem c5_guard_redirect_commits_login_witness :
    (navigate exC5 uA).2 = none ∧
    (navigate exC5 uA).1.route = some routeLogin ∧
    (navigate exC5 uA).1.context = ctxLogin ∧
    (navigate exC5 uA).1.history = exC5.history ++ ["/login"] ∧
    (navigate exC5 uA).1.docTitle = ctxLogin.title ∧
    (navigate exC5 uA).1.emitted = exC5.emitted ++ [ctxLogin] :=
  c5_guard_redirect_commits_login exC5 uA [] [] pluginToLogin
    (fun _ => .ok (some guardLogin)) guardLogin routeLogin ctxLogin rfl
    (fun q hq => absurd hq (List.not_mem_nil q))
    (fun q hq => absurd hq (List.not_mem_nil q))
    rfl (fun c => rfl) rfl rfl
    (fun q hq => by rw [List.eq_of_mem_singleton hq]; exact ⟨rfl, rfl⟩)
    rfl

end AppRouter

namespace AppRouter

/-! ### Claim C8 -/

/-- C8: with pure routes and plugins, calling `navigate` twice in sequence
with the identical already-current URL (formalised as: the URL — or,
failing that, the fallback — matches a route, which holds for any URL that
became current through a committed navigation, since the route table is
immutable) emits exactly one change notification per call, two in total,
and the Context carried by the second notification equals the Context
carried by the first. -/
theorem c8_navigate_idempotent (s : Router ρ) (u : Url)
    (hres : matchRouteAux s.routes u ≠ none ∨ matchRouteAux s.routes s.fallbackUrl ≠ none)
    (h1 : (navigate s u).2 = none) :
    (navigate (navigate s u).1 u).2 = none ∧
    (navigate s u).1.emitted = s.emitted ++ [(navigate s u).1.context] ∧
    (navigate (navigate s u).1 u).1.emitted =
      s.emitted ++ [(navigate s u).1.context] ++ [(navigate (navigate s u).1 u).1.context] ∧
    (navigate (navigate s u).1 u).1.context = (navigate s u).1.context := by
  obtain ⟨hcr, hcp, hcf⟩ := navigate_cfg s u
  have hnv : NavEq (resolveRoute s u) (resolveRoute (navigate s u).1 u) :=
    resolveRoute_reset u hcr.symm hcp.symm hcf.symm hres
  obtain ⟨he, hn⟩ := navigate_navEqResolve u hnv
  have h2 : (navigate (navigate s u).1 u).2 = none := by rw [← he]; exact h1
  have hctx : (navigate (navigate s u).1 u).1.context = (navigate s u).1.context :=
    hn.2.2.2.1.symm
  have hsh1 := navigate_success_shape s u h1
  have hsh2 := navigate_success_shape (navigate s u).1 u h2
  refine ⟨h2, hsh1, ?_, hctx⟩
  rw [hsh2, hsh1]

/-- C8 witness: the theorem evaluated at `exC8`, navigating twice to `/b`. -/
theorem c8_navigate_idempotent_witness :
    (navigate (navigate exC8 uB).1 uB).2 = none ∧
    (navigate exC8 uB).1.emitted = exC8.emitted ++ [(navigate exC8 uB).1.context] ∧
    (navigate (navigate exC8 uB).1 uB).1.emitted =
      exC8.emitted ++ [(navigate exC8 uB).1.context] ++
        [(navigate (navigate exC8 uB).1 uB).1.context] ∧
    (navigate (navigate exC8 uB).1 uB).1.context = (navigate exC8 uB).1.context := by
  have hx : matchRouteAux exC8.routes uB = some (routeB, ctxB) := rfl
  have hres : matchRouteAux exC8.routes uB ≠ none := by rw [hx]; simp
  exact c8_navigate_idempotent exC8 uB (Or.inl hres) rfl

/-! ### Claim C9 -/

/-- C9: a click delivered with the meta, ctrl or shift modifier set, or
whose composed-path anchor has `target="_blank"` or carries a `download`
attribute, is ignored by the anchor-click handler: it does not call
`preventDefault`, does not invoke `navigate`, and leaves the router state
unchanged. -/
theorem c9_anchor_click_exclusions (s : Router ρ) (e : ClickEvent)
    (h : e.metaKey = true ∨ e.ctrlKey = true ∨ e.shiftKey = true ∨
      ∃ a, e.composedPath.find? (fun el => el.tagName == "A") = some a ∧
        (a.target = some "_blank" ∨ a.hasDownload = true)) :
    onAnchorClick s e = (s, false, none) := by
  unfold onAnchorClick
  by_cases h0 :
      (e.defaultPrevented || e.button != 0 || e.metaKey || e.ctrlKey || e.shiftKey) = true
  · rw [if_pos h0]
  · rw [if_neg h0]
    rcases h with hm | hm | hm | ⟨a, ha, hcase⟩
    · exact absurd (by simp [hm]) h0
    · exact absurd (by simp [hm]) h0
    · exact absurd (by simp [hm]) h0
    · simp only [ha]
      by_cases h1 : (a.href == "") = true
      · rw [if_pos h1]
      · rw [if_neg h1]
        by_cases h2 : (s.locationHref == (parseUrl a.href).href) = true
        · rw [if_pos h2]
        · rw [if_neg h2]
          by_cases h3 : (a.hasDownload || strIncludes a.href "mailto:") = true
          · rw [if_pos h3]
          · rw [if_neg h3]
            rcases hcase with ht | hd
            · have ht2 : targetExcluded (some "_blank") = true := by decide
              rw [ht, if_pos ht2]
            · exact absurd (by simp [hd]) h3

/-- C9 witness: the theorem evaluated at a click on an anchor with
`target="_blank"`. -/
theorem c9_anchor_click_exclusions_witness :
    onAnchorClick exC9 evBlank = (exC9, false, none) :=
  c9_anchor_click_exclusions exC9 evBlank
    (Or.inr (Or.inr (Or.inr ⟨anchorBlank, rfl, Or.inl rfl⟩)))

end AppRouter
